import Mathlib

/-
Verification of the hierarchical-menu connector (src/unnamed/part_000).

The connector is embedded shallowly: JS objects become structures, the
externally-owned widget state becomes an explicit mapping from widget
identifiers to strings, `throw new Error(...)` becomes `Except.error`, and
JS `undefined`/`null` of a string-valued slot becomes `Option.none`.
The external algoliasearch-helper value types (`SearchParameters`, the
results object) are not part of this repository; they are modelled here
only to the extent the connector observes them, following the boundary
described in the specification.
-/

namespace HierarchicalMenu

/-- Local refinement state: a mapping from widget identifiers to the selected
path string. `none` models a JS-undefined entry; `some ""` models the empty
string written by an explicit clear. -/
abbrev State := String → Option String

/-- Widget configuration (the connector's props). `attributes = []` models both
a missing and an empty `attributes` prop, which the source treats identically
in its validation check. `defaultRefinement = none` models an absent default.
The `id` field is the prop supplied by the external connector framework; the
source reads it only inside `getValue`. -/
structure Props where
  id : String
  attributes : List String
  defaultRefinement : Option String
  showMore : Bool
  limitMin : Nat
  limitMax : Nat
  separator : String
  rootPath : Option String
  showParentLevel : Bool

/-- Source line 6: `export const getId = props => props.attributes[0];`.
`headD ""` stands in for the JS indexing; every public operation guards it
with a non-emptiness check before use. -/
def getId (props : Props) : String := props.attributes.headD ""

/-- Source lines 8-20: `getCurrentRefinement(props, state)`. A defined state
entry wins; the empty string there is an explicit clear and yields `null`;
otherwise a truthy (hence non-empty) `defaultRefinement` is returned, else
`null`. -/
def getCurrentRefinement (props : Props) (state : State) : Option String :=
  match state (getId props) with
  | some v => if v = "" then none else some v
  | none =>
    match props.defaultRefinement with
    | some d => if d = "" then none else some d
    | none => none

/-- Declaration of one hierarchical facet, as passed by the connector to the
external engine (source lines 38-44 and 189-195). -/
structure HierarchicalFacet where
  name : String
  attributes : List String
  separator : String
  rootPath : Option String
  showParentLevel : Bool

/-- Model of the external algoliasearch-helper `SearchParameters` value,
restricted to the fields the connector observes: the declared hierarchical
facets, the per-facet refinement lists, and `maxValuesPerFacet`. -/
structure SearchParameters where
  hierarchicalFacets : List HierarchicalFacet
  hierarchicalFacetsRefinements : String → List String
  maxValuesPerFacet : Option Nat

/-- Model of `new SearchParameters({hierarchicalFacets})` (source lines 37-45):
a fresh value with the given facets, no refinements and no
`maxValuesPerFacet`. -/
def SearchParameters.ofHierarchicalFacets (facets : List HierarchicalFacet) :
    SearchParameters :=
  { hierarchicalFacets := facets
    hierarchicalFacetsRefinements := fun _ => []
    maxValuesPerFacet := none }

/-- Model of the external `toggleHierarchicalFacetRefinement`, following the
specification's boundary description: toggling an already-refined path clears
the refinement, toggling a different path replaces it. Only the refinements
map is touched; declared facets and `maxValuesPerFacet` are unchanged. -/
def SearchParameters.toggleHierarchicalFacetRefinement
    (sp : SearchParameters) (id path : String) : SearchParameters :=
  let current := sp.hierarchicalFacetsRefinements id
  let next := if current.contains path then [] else [path]
  { sp with hierarchicalFacetsRefinements :=
      fun k => if k = id then next else sp.hierarchicalFacetsRefinements k }

/-- Model of the external `getHierarchicalRefinement`: the refinement list
recorded for the given facet. -/
def SearchParameters.getHierarchicalRefinement
    (sp : SearchParameters) (id : String) : List String :=
  sp.hierarchicalFacetsRefinements id

/-- Model of the external `addHierarchicalFacet`: appends a facet
declaration, leaving the other fields unchanged. -/
def SearchParameters.addHierarchicalFacet
    (sp : SearchParameters) (f : HierarchicalFacet) : SearchParameters :=
  { sp with hierarchicalFacets := sp.hierarchicalFacets ++ [f] }

/-- Model of the external `setQueryParameters({maxValuesPerFacet: n})`:
overwrites `maxValuesPerFacet`, leaving the other fields unchanged. -/
def SearchParameters.setMaxValuesPerFacet
    (sp : SearchParameters) (n : Nat) : SearchParameters :=
  { sp with maxValuesPerFacet := some n }

/-- Source lines 22-54: `getValue(path, props, state)`. With no current
refinement the candidate path itself is the next refinement; otherwise a
throwaway `SearchParameters` scoped to this widget is built, the current
refinement is toggled off, the candidate path toggled on, and the first
resulting refinement read back (`[0]` of an empty list is JS `undefined`,
hence `Option String`). -/
def getValue (path : String) (props : Props) (state : State) : Option String :=
  match getCurrentRefinement props state with
  | none => some path
  | some currentRefinement =>
    let tmpSearchParameters := SearchParameters.ofHierarchicalFacets
      [{ name := props.id
         attributes := props.attributes
         separator := props.separator
         rootPath := props.rootPath
         showParentLevel := props.showParentLevel }]
    ((tmpSearchParameters.toggleHierarchicalFacetRefinement props.id
        currentRefinement).toggleHierarchicalFacetRefinement props.id
        path).getHierarchicalRefinement props.id |>.head?

/-- A facet-value node as produced by the external engine: name, full path,
count, refined flag and an optional list of child nodes (`data`). -/
inductive FacetValue where
  | mk (name : String) (path : String) (count : Nat) ( isRefined : Bool)
      (data : Option (List FacetValue))

def FacetValue.name : FacetValue → String
  | .mk n _ _ _ _ => n

def FacetValue.path : FacetValue → String
  | .mk _ p _ _ _ => p

def FacetValue.count : FacetValue → Nat
  | .mk _ _ c _ _ => c

def FacetValue.data : FacetValue → Option (List FacetValue)
  | .mk _ _ _ _ d => d

/-- A display item produced by `transformValue`: label, toggle target
(`value`, possibly JS-undefined), count, refined flag and optional
children. -/
inductive Item where
  | mk (label : String) (value : Option String) (count : Nat)
      ( isRefined : Bool) (children : Option (List Item))

def Item.label : Item → String
  | .mk l _ _ _ _ => l

def Item.value : Item → Option String
  | .mk _ v _ _ _ => v

def Item.count : Item → Nat
  | .mk _ _ c _ _ => c

def Item.children : Item → Option (List Item)
  | .mk _ _ _ _ cs => cs

mutual

/-- Source lines 56-65, one node of the map in `transformValue`: label from
the node's name, `value` from `getValue`, and children obtained by the
recursive call `transformValue(v.data, limit, props, state)` whenever `data`
is present (`v.data && ...`). -/
def transformNode (props : Props) (state : State) (limit : Nat) :
    FacetValue → Item
  | .mk name path count isRefined data =>
    .mk name (getValue path props state) count isRefined
      (match data with
       | none => none
       | some d => some (transformTake props state limit limit d))

/-- Source line 57 fused with the map on line 58: transform the first `n`
nodes of the list and drop the rest (`value.slice(0, n).map(...)`). -/
def transformTake (props : Props) (state : State) (limit : Nat) :
    Nat → List FacetValue → List Item
  | 0, _ => []
  | _, [] => []
  | n + 1, v :: vs =>
    transformNode props state limit v :: transformTake props state limit n vs

end

/-- Source lines 56-65: `transformValue(value, limit, props, state)` slices
the sibling list to `limit` entries and maps each through the node
transformation; the recursive call passes the same `limit` down. -/
def transformValue (props : Props) (state : State) (limit : Nat)
    (value : List FacetValue) : List Item :=
  transformTake props state limit limit value

/-- The message of the single configuration-validation error (source lines
139, 162, 183, 216). -/
def attributesError : String := "attributes props should at least have one element"

/-- Model of the root object returned by the external
`results.getFacetValues(id, {sortBy})`: the connector only reads its optional
`data` field. -/
structure FacetValuesRoot where
  data : Option (List FacetValue)

/-- Model of the external results object, restricted to what the connector
calls: `getFacetByName` (observed only through `Boolean(...)`, hence `Bool`)
and `getFacetValues` (the engine sorts; the fixed `sortBy = ['name:asc']`
option is the engine's concern). -/
structure SearchResults where
  getFacetByName : String → Bool
  getFacetValues : String → FacetValuesRoot

/-- The connector's third argument in `getProps`; `results` may be absent
before the first response. -/
structure Search where
  results : Option SearchResults

/-- The view props returned by `getProps` when the facet is present
(source lines 154-157). -/
structure ViewProps where
  items : List Item
  currentRefinement : Option String

/-- Source line 152 and 186: `const limit = showMore ? limitMax : limitMin`. -/
def activeLimit (props : Props) : Nat :=
  if props.showMore then props.limitMax else props.limitMin

/-- Source lines 135-158: `getProps(props, state, search)`. Throws the
configuration error on a missing or empty attribute list; returns `null`
unless a results object is present and has a facet registered under the
widget's identifier; otherwise returns the transformed items (empty when the
facet values carry no `data`) together with the current refinement. -/
def getProps (props : Props) (state : State) (search : Search) :
    Except String (Option ViewProps) :=
  if props.attributes.isEmpty then .error attributesError else
  let id := getId props
  match search.results with
  | none => .ok none
  | some results =>
    if results.getFacetByName id then
      let limit := activeLimit props
      let value := results.getFacetValues id
      .ok (some
        { items := match value.data with
            | some d => transformValue props state limit d
            | none => []
          currentRefinement := getCurrentRefinement props state })
    else .ok none

/-- JS `nextRefinement || ''` for a string-or-null-or-undefined value: a
missing or empty (falsy) value yields the empty string. -/
def jsOrEmpty : Option String → String
  | none => ""
  | some s => if s = "" then "" else s

/-- Source lines 160-169: `refine(props, state, nextRefinement)`. Throws the
configuration error on a missing or empty attribute list; otherwise returns a
copy of the state in which the widget's identifier maps to
`nextRefinement || ''`. -/
def refine (props : Props) (state : State) (nextRefinement : Option String) :
    Except String State :=
  if props.attributes.isEmpty then .error attributesError else
  let id := getId props
  .ok (fun k => if k = id then some (jsOrEmpty nextRefinement) else state k)

/-- Source lines 171-212: `getSearchParameters(searchParameters, props, state)`.
Throws the configuration error on a missing or empty attribute list; registers
the widget's hierarchical facet, raises `maxValuesPerFacet` to
`Math.max(searchParameters.maxValuesPerFacet || 0, limit)`, and applies the
current refinement through the engine's toggle when one is selected. -/
def getSearchParameters (searchParameters : SearchParameters) (props : Props)
    (state : State) : Except String SearchParameters :=
  if props.attributes.isEmpty then .error attributesError else
  let id := getId props
  let limit := activeLimit props
  let sp := (searchParameters.addHierarchicalFacet
      { name := id
        attributes := props.attributes
        separator := props.separator
        rootPath := props.rootPath
        showParentLevel := props.showParentLevel }).setMaxValuesPerFacet
      (max (searchParameters.maxValuesPerFacet.getD 0) limit)
  .ok (match getCurrentRefinement props state with
    | some currentRefinement =>
      sp.toggleHierarchicalFacetRefinement id currentRefinement
    | none => sp)

/-- One active-filter entry of the metadata (source lines 224-232); `value`
is the clear function returning a state with the widget's entry emptied. -/
structure MetadataItem where
  label : String
  attributeName : String
  value : State → State
  currentRefinement : String

/-- The metadata object returned by `getMetadata` (source lines 222-233). -/
structure Metadata where
  id : String
  items : List MetadataItem

/-- Source lines 214-234: `getMetadata(props, state)`. Throws the
configuration error on a missing or empty attribute list; with a falsy
(absent or empty) current refinement the items list is empty, otherwise it
holds the single entry labelled with the first attribute, a colon and a
space, and the refinement, whose `value` function clears the widget's state
entry to the empty string. -/
def getMetadata (props : Props) (state : State) : Except String Metadata :=
  if props.attributes.isEmpty then .error attributesError else
  let rootAttribute := props.attributes.headD ""
  let id := getId props
  .ok
    { id := id
      items := match getCurrentRefinement props state with
        | none => []
        | some currentRefinement =>
          if currentRefinement = "" then []
          else
            [{ label := rootAttribute ++ ": " ++ currentRefinement
               attributeName := rootAttribute
               value := fun nextState =>
                 fun k => if k = id then some "" else nextState k
               currentRefinement := currentRefinement }] }

mutual

/-- Boundedness of one display item: its children list, when present, has at
most `limit` entries, recursively. -/
def itemBounded (limit : Nat) : Item → Bool
  | .mk _ _ _ _ children =>
    match children with
    | none => true
    | some cs => decide (cs.length ≤ limit) && itemsBounded limit cs

/-- Boundedness of a display-item list: every member is bounded. -/
def itemsBounded (limit : Nat) : List Item → Bool
  | [] => true
  | i :: is => itemBounded limit i && itemsBounded limit is

end

/-- A well-formed sample configuration used by concrete witnesses. -/
def sampleProps : Props :=
  { id := "category"
    attributes := ["category", "category.lvl1"]
    defaultRefinement := none
    showMore := false
    limitMin := 10
    limitMax := 20
    separator := " > "
    rootPath := none
    showParentLevel := true }

/-- The sample configuration with `defaultRefinement: 'clothing'`. -/
def propsClothing : Props := { sampleProps with defaultRefinement := some "clothing" }

/-- The sample configuration with an empty-string `defaultRefinement`. -/
def propsEmptyDefault : Props := { sampleProps with defaultRefinement := some "" }

/-- The sample configuration with an empty attribute list. -/
def propsNoAttributes : Props := { sampleProps with attributes := [] }

/-- The state in which no widget has ever written an entry. -/
def emptyState : State := fun _ => none

/-- A state with the literal entry `state.category = 'shoes'`. -/
def stateShoes : State := fun k => if k = "category" then some "shoes" else none

/-- A state with the explicitly cleared entry `state.category = ''`. -/
def stateCleared : State := fun k => if k = "category" then some "" else none

/-- A one-root facet tree whose root carries two children, used to exhibit
child-list truncation at `limit = 1`. -/
def cexTree : List FacetValue :=
  [.mk "Shoes" "Shoes" 10 false (some
    [.mk "Sneakers" "Shoes > Sneakers" 4 false none,
     .mk "Boots" "Shoes > Boots" 3 false none])]

/-- The state produced by refining the sample widget to `'a > b'`. -/
def stateRefined : State :=
  fun k => if k = getId sampleProps then some (jsOrEmpty (some "a > b")) else emptyState k

/-- The state produced by refining the sample widget with a null next value. -/
def stateRefinedNull : State :=
  fun k => if k = getId sampleProps then some (jsOrEmpty none) else emptyState k

/-- Search parameters that already carry `maxValuesPerFacet = 100`. -/
def spBefore : SearchParameters :=
  { hierarchicalFacets := []
    hierarchicalFacetsRefinements := fun _ => []
    maxValuesPerFacet := some 100 }

/-- The search parameters produced from `spBefore` by the sample widget. -/
def spAfter : SearchParameters :=
  (spBefore.addHierarchicalFacet
    { name := getId sampleProps
      attributes := sampleProps.attributes
      separator := sampleProps.separator
      rootPath := sampleProps.rootPath
      showParentLevel := sampleProps.showParentLevel }).setMaxValuesPerFacet
    (max (spBefore.maxValuesPerFacet.getD 0) (activeLimit sampleProps))

/-- The metadata returned for the unrefined sample widget. -/
def mdUnrefined : Metadata := { id := "category", items := [] }

/-- The metadata returned for the sample widget refined to `'shoes'`. -/
def mdRefined : Metadata :=
  { id := "category"
    items := [{ label := "category: shoes"
                attributeName := "category"
                value := fun nextState =>
                  fun k => if k = "category" then some "" else nextState k
                currentRefinement := "shoes" }] }

/-- A results object with no facet registered under any name. -/
def resultsNoFacet : SearchResults :=
  { getFacetByName := fun _ => false
    getFacetValues := fun _ => { data := none } }

/-- A results object whose facet is present but whose facet values carry no
`data` field. -/
def resultsNoData : SearchResults :=
  { getFacetByName := fun _ => true
    getFacetValues := fun _ => { data := none } }

/-- A results object whose facet is present with the sample facet tree. -/
def resultsWithData : SearchResults :=
  { getFacetByName := fun _ => true
    getFacetValues := fun _ => { data := some cexTree } }

/-- Sanity equation: the fused `transformTake` agrees with the source's
slice-then-map shape `value.slice(0, n).map(...)`. -/
theorem transformTake_eq_take_map (props : Props) (state : State)
    (limit n : Nat) (vs : List FacetValue) :
    transformTake props state limit n vs =
      (vs.take n).map (transformNode props state limit) := by
  induction n generalizing vs with
  | zero => simp [transformTake]
  | succ n ih =>
    cases vs with
    | nil => simp [transformTake]
    | cons v vs => simp [transformTake, ih]

/-- The transformation of a sibling list yields at most `n` items. -/
theorem length_transformTake (props : Props) (state : State)
    (limit n : Nat) (vs : List FacetValue) :
    (transformTake props state limit n vs).length ≤ n := by
  rw [transformTake_eq_take_map]
  simp [List.length_take]

mutual

/-- Every node produced by the transformation is bounded: each children list
along the tree has at most `limit` entries. -/
theorem itemBounded_transformNode (props : Props) (state : State) (limit : Nat)
    (v : FacetValue) :
    itemBounded limit (transformNode props state limit v) = true :=
  match v with
  | .mk _ _ _ _ data =>
    match data with
    | none => by simp [transformNode, itemBounded]
    | some d => by
      simp [transformNode, itemBounded]
      exact ⟨length_transformTake props state limit limit d,
        itemsBounded_transformTake props state limit limit d⟩

/-- Every item list produced by the transformation is bounded. -/
theorem itemsBounded_transformTake (props : Props) (state : State)
    (limit : Nat) : (n : Nat) → (vs : List FacetValue) →
    itemsBounded limit (transformTake props state limit n vs) = true
  | 0, _ => by simp [transformTake, itemsBounded]
  | _ + 1, [] => by simp [transformTake, itemsBounded]
  | n + 1, v :: vs => by
    simp [transformTake, itemsBounded]
    exact ⟨itemBounded_transformNode props state limit v,
      itemsBounded_transformTake props state limit n vs⟩

end

/-- C1 (amended): for every facet-value tree and every limit, `transformValue`
returns at most `limit` top-level items, and the limit is re-applied at every
level of the recursion, so every children list of the result also has at most
`limit` entries. -/
theorem transformValue_limit_every_level (props : Props) (state : State)
    (limit : Nat) (value : List FacetValue) :
    (transformValue props state limit value).length ≤ limit ∧
    itemsBounded limit (transformValue props state limit value) = true :=
  ⟨length_transformTake props state limit limit value,
   itemsBounded_transformTake props state limit limit value⟩

/-- C1 counterexample: at `limit = 1`, a root whose source child list has two
entries is transformed into an item whose children list has a single entry,
so child lists are truncated, contrary to the claim. -/
theorem transformValue_children_truncated_cex :
    (cexTree.map fun v => v.data.map List.length) = [some 2] ∧
    ((transformValue sampleProps emptyState 1 cexTree).map fun it =>
      it.children.map List.length) = [some 1] :=
  ⟨rfl, rfl⟩

/-- The current refinement is never the empty string: an empty state entry and
an empty default both resolve to `null`. -/
theorem getCurrentRefinement_ne_some_empty (props : Props) (state : State) :
    getCurrentRefinement props state ≠ some "" := by
  unfold getCurrentRefinement
  cases h : state (getId props) with
  | some v =>
    by_cases hv : v = "" <;> simp [hv]
  | none =>
    cases hd : props.defaultRefinement with
    | some d => by_cases hd2 : d = "" <;> simp [hd2]
    | none => simp

/-- C2 (amended): resolution order of `getCurrentRefinement`: a defined
non-empty state entry is returned; a defined empty state entry yields `null`
without falling back to the default; otherwise a present non-empty
`defaultRefinement` is returned; a missing or empty-string default yields
`null`. -/
theorem getCurrentRefinement_resolution (props : Props) (state : State) :
    (∀ v, state (getId props) = some v → v ≠ "" →
      getCurrentRefinement props state = some v) ∧
    (state (getId props) = some "" → getCurrentRefinement props state = none) ∧
    (state (getId props) = none → ∀ d, props.defaultRefinement = some d →
      d ≠ "" → getCurrentRefinement props state = some d) ∧
    (state (getId props) = none →
      (props.defaultRefinement = none ∨ props.defaultRefinement = some "") →
      getCurrentRefinement props state = none) := by
  refine ⟨?_, ?_, ?_, ?_⟩
  · intro v hv hne
    simp [getCurrentRefinement, hv, hne]
  · intro hv
    simp [getCurrentRefinement, hv]
  · intro hs d hd hne
    simp [getCurrentRefinement, hs, hd, hne]
  · intro hs hd
    rcases hd with hd | hd <;> simp [getCurrentRefinement, hs, hd]

/-- Witness for C2's amended theorem at the specification's four literal
inputs: state entry `'shoes'`, explicitly cleared entry with a default,
untouched state with default `'clothing'`, and untouched state with no
default. -/
theorem getCurrentRefinement_resolution_witness :
    getCurrentRefinement propsClothing stateShoes = some "shoes" ∧
    getCurrentRefinement propsClothing stateCleared = none ∧
    getCurrentRefinement propsClothing emptyState = some "clothing" ∧
    getCurrentRefinement sampleProps emptyState = none :=
  ⟨(getCurrentRefinement_resolution propsClothing stateShoes).1 "shoes" rfl
      (by decide),
   (getCurrentRefinement_resolution propsClothing stateCleared).2.1 rfl,
   (getCurrentRefinement_resolution propsClothing emptyState).2.2.1 rfl
      "clothing" rfl (by decide),
   (getCurrentRefinement_resolution sampleProps emptyState).2.2.2 rfl
      (Or.inl rfl)⟩

/-- C2 counterexample: with `defaultRefinement` present but equal to the empty
string and no state entry, the claim's branch three says the default is
returned, but the source checks truthiness and returns `null`. -/
theorem getCurrentRefinement_default_present_cex :
    propsEmptyDefault.defaultRefinement = some "" ∧
    emptyState (getId propsEmptyDefault) = none ∧
    getCurrentRefinement propsEmptyDefault emptyState = none ∧
    getCurrentRefinement propsEmptyDefault emptyState ≠
      propsEmptyDefault.defaultRefinement :=
  ⟨rfl, rfl, rfl, by decide⟩

/-- C3: with a missing or empty attribute list every public operation fails
with the single configuration-validation error, and with a non-empty
attribute list none of them can fail. -/
theorem config_error_all_operations (props : Props) (state : State)
    (search : Search) (sp : SearchParameters) (next : Option String) :
    (props.attributes = [] →
      getProps props state search = .error attributesError ∧
      HierarchicalMenu.refine props state next = .error attributesError ∧
      getSearchParameters sp props state = .error attributesError ∧
      getMetadata props state = .error attributesError) ∧
    (props.attributes ≠ [] →
      (∀ e, getProps props state search ≠ .error e) ∧
      (∀ e, HierarchicalMenu.refine props state next ≠ .error e) ∧
      (∀ e, getSearchParameters sp props state ≠ .error e) ∧
      (∀ e, getMetadata props state ≠ .error e)) := by
  constructor
  · intro h
    refine ⟨?_, ?_, ?_, ?_⟩ <;>
      simp [getProps, HierarchicalMenu.refine, getSearchParameters,
        getMetadata, h]
  · intro h
    have hne : props.attributes.isEmpty = false := by
      cases hp : props.attributes with
      | nil => exact absurd hp h
      | cons a l => rfl
    refine ⟨?_, ?_, ?_, ?_⟩
    · intro e
      cases hres : search.results with
      | none => simp [getProps, hne, hres]
      | some results =>
        cases hfb : results.getFacetByName (getId props) with
        | false => simp [getProps, hne, hres, hfb]
        | true => simp [getProps, hne, hres, hfb]
    · intro e
      simp [HierarchicalMenu.refine, hne]
    · intro e
      simp [getSearchParameters, hne]
    · intro e
      simp [getMetadata, hne]

/-- Witness for C3: the error cases at a concrete empty-attributes
configuration and a success case at the sample configuration. -/
theorem config_error_all_operations_witness :
    getProps propsNoAttributes emptyState { results := none } =
      .error attributesError ∧
    getMetadata propsNoAttributes emptyState = .error attributesError ∧
    HierarchicalMenu.refine sampleProps emptyState none ≠
      .error attributesError :=
  ⟨((config_error_all_operations propsNoAttributes emptyState
      { results := none } spBefore none).1 rfl).1,
   ((config_error_all_operations propsNoAttributes emptyState
      { results := none } spBefore none).1 rfl).2.2.2,
   ((config_error_all_operations sampleProps emptyState
      { results := none } spBefore none).2 (by decide)).2.1 attributesError⟩

/-- C4: refining and reading back round-trips: applying a non-empty value
makes `getCurrentRefinement` on the result return that value, and applying a
null next value writes the empty string, after which `getCurrentRefinement`
returns `null`. -/
theorem refine_currentRefinement_roundtrip (props : Props) (state : State)
    (h : props.attributes ≠ []) :
    (∀ v s, v ≠ "" →
      HierarchicalMenu.refine props state (some v) = .ok s →
      getCurrentRefinement props s = some v) ∧
    (∀ s, HierarchicalMenu.refine props state none = .ok s →
      s (getId props) = some "" ∧ getCurrentRefinement props s = none) := by
  have hne : props.attributes.isEmpty = false := by
    cases hp : props.attributes with
    | nil => exact absurd hp h
    | cons a l => rfl
  constructor
  · intro v s hv hs
    simp [HierarchicalMenu.refine, hne] at hs
    subst hs
    simp [getCurrentRefinement, jsOrEmpty, hv]
  · intro s hs
    simp [HierarchicalMenu.refine, hne] at hs
    subst hs
    simp [getCurrentRefinement, jsOrEmpty]

/-- Witness for C4 at the specification's literal value `'a > b'` and at a
null next value. -/
theorem refine_currentRefinement_roundtrip_witness :
    getCurrentRefinement sampleProps stateRefined = some "a > b" ∧
    stateRefinedNull (getId sampleProps) = some "" ∧
    getCurrentRefinement sampleProps stateRefinedNull = none :=
  ⟨(refine_currentRefinement_roundtrip sampleProps emptyState
      (by decide)).1 "a > b" stateRefined (by decide) rfl,
   (refine_currentRefinement_roundtrip sampleProps emptyState
      (by decide)).2 stateRefinedNull rfl⟩

/-- C5: `getSearchParameters` never lowers `maxValuesPerFacet`: the result
carries at least the widget's active limit and at least the input's existing
value. -/
theorem getSearchParameters_raises_maxValuesPerFacet (sp : SearchParameters)
    (props : Props) (state : State) (h : props.attributes ≠ [])
    (sp' : SearchParameters)
    (h2 : getSearchParameters sp props state = .ok sp') :
    activeLimit props ≤ sp'.maxValuesPerFacet.getD 0 ∧
    sp.maxValuesPerFacet.getD 0 ≤ sp'.maxValuesPerFacet.getD 0 := by
  have hne : props.attributes.isEmpty = false := by
    cases hp : props.attributes with
    | nil => exact absurd hp h
    | cons a l => rfl
  simp [getSearchParameters, hne] at h2
  cases hcr : getCurrentRefinement props state with
  | none =>
    rw [hcr] at h2
    subst h2
    simp [SearchParameters.addHierarchicalFacet,
      SearchParameters.setMaxValuesPerFacet]
  | some r =>
    rw [hcr] at h2
    subst h2
    simp [SearchParameters.addHierarchicalFacet,
      SearchParameters.setMaxValuesPerFacet,
      SearchParameters.toggleHierarchicalFacetRefinement]

/-- Witness for C5: the sample widget on parameters already carrying
`maxValuesPerFacet = 100` keeps it at `100`, above the active limit `10`. -/
theorem getSearchParameters_raises_maxValuesPerFacet_witness :
    getSearchParameters spBefore sampleProps emptyState = .ok spAfter ∧
    activeLimit sampleProps ≤ spAfter.maxValuesPerFacet.getD 0 ∧
    spBefore.maxValuesPerFacet.getD 0 ≤ spAfter.maxValuesPerFacet.getD 0 :=
  ⟨rfl, getSearchParameters_raises_maxValuesPerFacet spBefore sampleProps
    emptyState (by decide) spAfter rfl⟩

/-- C6: the metadata's items list is empty exactly when no refinement is
current; when one is current it holds a single entry whose label is the first
attribute, a colon and a space, then the refinement, whose attribute name is
the first attribute, and whose clear function empties the widget's state
entry while leaving every other key unchanged. -/
theorem getMetadata_items_spec (props : Props) (state : State)
    (h : props.attributes ≠ []) (md : Metadata)
    (hmd : getMetadata props state = .ok md) :
    (getCurrentRefinement props state = none → md.items = []) ∧
    (∀ r, getCurrentRefinement props state = some r →
      ∃ it, md.items = [it] ∧
        it.label = props.attributes.headD "" ++ ": " ++ r ∧
        it.attributeName = props.attributes.headD "" ∧
        it.currentRefinement = r ∧
        ∀ (s : State) (k : String),
          it.value s k = if k = getId props then some "" else s k) := by
  have hne : props.attributes.isEmpty = false := by
    cases hp : props.attributes with
    | nil => exact absurd hp h
    | cons a l => rfl
  simp [getMetadata, hne] at hmd
  constructor
  · intro hcr
    rw [hcr] at hmd
    subst hmd
    rfl
  · intro r hcr
    have hr : r ≠ "" := by
      intro he
      exact getCurrentRefinement_ne_some_empty props state (he ▸ hcr)
    rw [hcr] at hmd
    subst hmd
    refine ⟨{ label := props.attributes.headD "" ++ ": " ++ r
              attributeName := props.attributes.headD ""
              value := fun nextState =>
                fun k => if k = getId props then some "" else nextState k
              currentRefinement := r },
      by simp [hr], rfl, rfl, rfl, fun s k => rfl⟩

/-- Witness for C6: the unrefined sample widget yields no metadata items; the
widget refined to `'shoes'` yields exactly one. -/
theorem getMetadata_items_spec_witness :
    (getMetadata sampleProps emptyState = .ok mdUnrefined ∧
      mdUnrefined.items = []) ∧
    (getMetadata propsClothing stateShoes = .ok mdRefined ∧
      mdRefined.items.length = 1) :=
  ⟨⟨rfl, (getMetadata_items_spec sampleProps emptyState (by decide)
      mdUnrefined rfl).1 rfl⟩,
   ⟨rfl, by
      obtain ⟨it, hit, -⟩ := (getMetadata_items_spec propsClothing stateShoes
        (by decide) mdRefined rfl).2 "shoes" rfl
      simp [hit]⟩⟩

/-- C7: `getProps` returns `null` when the results object is absent or has no
facet registered under the widget's identifier; when the facet is present it
returns the transformed items together with the current refinement. -/
theorem getProps_facet_presence (props : Props) (state : State)
    (search : Search) (h : props.attributes ≠ []) :
    (search.results = none → getProps props state search = .ok none) ∧
    (∀ results, search.results = some results →
      results.getFacetByName (getId props) = false →
      getProps props state search = .ok none) ∧
    (∀ results, search.results = some results →
      results.getFacetByName (getId props) = true →
      ∃ vp, getProps props state search = .ok (some vp) ∧
        vp.currentRefinement = getCurrentRefinement props state ∧
        ∀ d, (results.getFacetValues (getId props)).data = some d →
          vp.items = transformValue props state (activeLimit props) d) := by
  have hne : props.attributes.isEmpty = false := by
    cases hp : props.attributes with
    | nil => exact absurd hp h
    | cons a l => rfl
  refine ⟨?_, ?_, ?_⟩
  · intro hres
    simp [getProps, hne, hres]
  · intro results hres hfb
    simp [getProps, hne, hres, hfb]
  · intro results hres hfb
    refine ⟨{ items := match (results.getFacetValues (getId props)).data with
                | some d => transformValue props state (activeLimit props) d
                | none => []
              currentRefinement := getCurrentRefinement props state },
      ?_, rfl, ?_⟩
    · simp [getProps, hne, hres, hfb]
    · intro d hd
      simp [hd]

/-- Witness for C7: an absent results object and a facet-less results object
both yield `null` for the sample widget. -/
theorem getProps_facet_presence_witness :
    getProps sampleProps emptyState { results := none } = .ok none ∧
    getProps sampleProps emptyState { results := some resultsNoFacet } =
      .ok none :=
  ⟨(getProps_facet_presence sampleProps emptyState
      { results := none } (by decide)).1 rfl,
   (getProps_facet_presence sampleProps emptyState
      { results := some resultsNoFacet } (by decide)).2.1
      resultsNoFacet rfl rfl⟩

/-- C8: `refine` is a functional update: the returned state agrees with the
input state on every key other than the widget's identifier. -/
theorem refine_frame (props : Props) (state : State) (next : Option String)
    (h : props.attributes ≠ []) (s' : State)
    (hs : HierarchicalMenu.refine props state next = .ok s') :
    ∀ k, k ≠ getId props → s' k = state k := by
  have hne : props.attributes.isEmpty = false := by
    cases hp : props.attributes with
    | nil => exact absurd hp h
    | cons a l => rfl
  simp [HierarchicalMenu.refine, hne] at hs
  subst hs
  intro k hk
  simp [hk]

/-- Witness for C8: refining the sample widget leaves the unrelated key
`'color'` untouched. -/
theorem refine_frame_witness : stateRefined "color" = emptyState "color" :=
  refine_frame sampleProps emptyState (some "a > b") (by decide)
    stateRefined rfl "color" (by decide)

/-- C9: a configuration whose `defaultRefinement` is the empty string behaves
as if no default were supplied: with no state entry under the widget's
identifier, `getCurrentRefinement` returns `null`. -/
theorem getCurrentRefinement_empty_default (props : Props) (state : State)
    (hd : props.defaultRefinement = some "")
    (hs : state (getId props) = none) :
    getCurrentRefinement props state = none := by
  simp [getCurrentRefinement, hs, hd]

/-- Witness for C9 at the concrete empty-string-default configuration and the
untouched state. -/
theorem getCurrentRefinement_empty_default_witness :
    getCurrentRefinement propsEmptyDefault emptyState = none :=
  getCurrentRefinement_empty_default propsEmptyDefault emptyState rfl rfl

/-- C10: when the facet is present but the facet-values object carries no
`data` field, `getProps` does not return `null`: it returns empty items
together with the current refinement computed from config and state. -/
theorem getProps_present_without_data (props : Props) (state : State)
    (search : Search) (results : SearchResults) (h : props.attributes ≠ [])
    (hr : search.results = some results)
    (hb : results.getFacetByName (getId props) = true)
    (hd : (results.getFacetValues (getId props)).data = none) :
    getProps props state search =
      .ok (some { items := []
                  currentRefinement := getCurrentRefinement props state }) := by
  have hne : props.attributes.isEmpty = false := by
    cases hp : props.attributes with
    | nil => exact absurd hp h
    | cons a l => rfl
  simp [getProps, hne, hr, hb, hd]

/-- Witness for C10: a present facet with no `data` yields empty items and a
`null` current refinement for the sample widget, not `null` view props. -/
theorem getProps_present_without_data_witness :
    getProps sampleProps emptyState { results := some resultsNoData } =
      .ok (some { items := [], currentRefinement := none }) :=
  getProps_present_without_data sampleProps emptyState
    { results := some resultsNoData } resultsNoData (by decide) rfl rfl rfl

end HierarchicalMenu
